import Mathlib

/-!
Shallow embedding of the pump.fun sniper bot (Rust sources under
`rust/src/`) and verification of its specification claims.

Modelling conventions:
* `u64` values are `Nat`; overflow never occurs in the modelled code paths
  (the only subtraction, `BalanceCache::debit`, is guarded by a `>=` check).
* `Instant` timestamps are abstract `Nat` ticks; `Duration` windows use the
  same unit.  `Instant::duration_since` saturates at zero, which matches
  truncated `Nat` subtraction.
* `f64` configuration values (`PurchaseStrategy`, profit guard factors) are
  modelled as `Rat`; the float-rounding of `as u64` casts is modelled as
  `Int.floor` composed with `Int.toNat` (saturating at zero for negatives).
* Concurrent containers (`DashSet`, `DashMap`, `RwLock`) are modelled by
  their sequential contents: lists, functions into lists, and plain values.
* `anyhow::Result` is `Except String`.
-/

namespace Sniper

/-- Model of `solana_sdk::pubkey::Pubkey`: a 32-byte value.  The byte list
is unconstrained in the type; well-formedness is the predicate below. -/
structure Pubkey where
  bytes : List Nat
deriving DecidableEq, Repr

/-- A well-formed public key has exactly 32 bytes, each below 256. -/
def Pubkey.wf (p : Pubkey) : Prop :=
  p.bytes.length = 32 ∧ ∀ b ∈ p.bytes, b < 256

instance (p : Pubkey) : Decidable p.wf := by
  unfold Pubkey.wf; infer_instance

/-- Model of `solana_sdk::hash::Hash` (a recent blockhash): opaque value. -/
structure Hash where
  val : Nat
deriving DecidableEq, Repr

/-- Model of `solana_sdk::signature::Signature`: opaque value. -/
structure Signature where
  val : Nat
deriving DecidableEq, Repr

/-! ### Base58 decoding (external dependency `bs58`, used by
`Pubkey::from_str`).  Faithful to the bitcoin base58 alphabet. -/

/-- The base58 alphabet used by `bs58` / Solana. -/
def base58Alphabet : List Char :=
  "123456789ABCDEFGHJKLMNPQRSTUVWXYZabcdefghijkmnopqrstuvwxyz".toList

/-- Value of one base58 digit, `none` when the character is not in the
alphabet. -/
def base58DigitValue (c : Char) : Option Nat :=
  base58Alphabet.findIdx? (fun d => d = c)

/-- Fold a base58 digit string (most significant digit first) into the
`Nat` it denotes, accumulating left to right. -/
def base58ValueAux (acc : Nat) : List Char → Option Nat
  | [] => some acc
  | c :: cs =>
    match base58DigitValue c with
    | some d => base58ValueAux (acc * 58 + d) cs
    | none => none

/-- The `Nat` denoted by a base58 digit string. -/
def base58Value (s : List Char) : Option Nat :=
  base58ValueAux 0 s

/-- Big-endian minimal byte representation of `n`, with explicit fuel
(enough fuel is one recursion step per byte). -/
def natBytesBEAux : Nat → Nat → List Nat
  | 0, _ => []
  | fuel + 1, n => if n = 0 then [] else natBytesBEAux fuel (n / 256) ++ [n % 256]

/-- Base58 decoding: leading alphabet zeros become leading zero bytes, the
rest is the big-endian representation of the digit value.  `s.length` fuel
suffices because the value is below `58 ^ s.length ≤ 256 ^ s.length`. -/
def base58DecodeBytes (s : List Char) : Option (List Nat) :=
  let zeros := (s.takeWhile (fun c => c = Char.ofNat 49)).length
  let rest := s.dropWhile (fun c => c = Char.ofNat 49)
  match base58Value rest with
  | none => none
  | some v => some (List.replicate zeros 0 ++ natBytesBEAux s.length v)

/-- Model of `Pubkey::from_str`: reject strings longer than 44 characters,
base58-decode, and require exactly 32 bytes. -/
def pubkeyFromStr (s : String) : Option Pubkey :=
  if s.length > 44 then none
  else
    match base58DecodeBytes s.toList with
    | none => none
    | some bs => if bs.length = 32 then some ⟨bs⟩ else none

/-! ### Configuration (`rust/src/config.rs`) -/

/-- Model of `config::PurchaseStrategy`; `f64` amounts are `Rat`. -/
inductive PurchaseStrategy where
  | FixedSol (amount : Rat)
  | PercentBalance (fraction : Rat)
deriving DecidableEq, Repr

/-- Model of `config::FeeConfig`. -/
structure FeeConfig where
  priority_fee_lamports : Option Nat
  use_jito_tip : Option Bool
  jito_tip_lamports : Option Nat
deriving DecidableEq, Repr

/-- Model of `config::ProfitGuardConfig`. -/
structure ProfitGuardConfig where
  take_profit_factor : Option Rat
  stop_loss_factor : Option Rat
deriving DecidableEq, Repr

/-- Model of `config::DevFilterConfig`. -/
structure DevFilterConfig where
  dev_whitelist : Option (List String)
  dev_blacklist : Option (List String)
  dev_max_tokens_per_min : Option Nat
deriving DecidableEq, Repr

/-- Model of `config::EndpointsConfig`. -/
structure EndpointsConfig where
  rpc_http_url : String
  ws_url : Option String
  laserstream_grpc_url : Option String
  jito_api_url : Option String
  nozomi_rpc_url : Option String
deriving DecidableEq, Repr

/-- Model of `config::Config`. -/
structure Config where
  endpoints : EndpointsConfig
  keypair_path : String
  pump_fun_program : Option String
  purchase_strategy : PurchaseStrategy
  max_slippage_bps : Option Nat
  fee_config : FeeConfig
  profit_guard : Option ProfitGuardConfig
  dev_filters : DevFilterConfig
  dry_run : Option Bool
  log_level : Option String
  blockhash_refresh_ms : Option Nat
  balance_refresh_ms : Option Nat
deriving DecidableEq, Repr

/-- Model of `solana_sdk::native_token::sol_to_lamports`:
`(sol * 1_000_000_000.0) as u64`, the cast truncating toward zero and
saturating at zero for negative input. -/
def solToLamports (amount : Rat) : Nat :=
  (Int.floor (amount * 1000000000)).toNat

/-- Model of `Config::compute_buy_amount`. -/
def Config.compute_buy_amount (c : Config) (cached_balance : Nat) : Except String Nat :=
  match c.purchase_strategy with
  | .FixedSol amount =>
    if amount ≤ 0 then .error "Fixed SOL amount must be positive"
    else .ok (solToLamports amount)
  | .PercentBalance fraction =>
    if fraction < 0 ∨ 1 < fraction then
      .error "purchase_percentage must be between 0 and 1"
    else .ok (Int.floor ((cached_balance : Rat) * fraction)).toNat

/-- Model of `Config::dry_run`. -/
def Config.dryRun (c : Config) : Bool :=
  c.dry_run.getD false

/-- Model of `Config::program_id`: decode `pump_fun_program`, defaulting to
the literal `"5eykt4UsFv8P8NJdTREpY1vzqKqZKvdp"` from the source. -/
def Config.program_id (c : Config) : Except String Pubkey :=
  let id := c.pump_fun_program.getD "5eykt4UsFv8P8NJdTREpY1vzqKqZKvdp"
  match pubkeyFromStr id with
  | some p => .ok p
  | none => .error "Invalid pump.fun program id"

/-! ### Events (`rust/src/events/mod.rs`) -/

/-- Model of `events::EventSourceKind`. -/
inductive EventSourceKind where
  | LaserStream
  | WebSocket
deriving DecidableEq, Repr

/-- Model of `events::TokenEvent`. -/
structure TokenEvent where
  mint : Pubkey
  developer : Pubkey
  source : EventSourceKind
deriving DecidableEq, Repr

/-! ### State (`rust/src/state.rs`) -/

/-- Model of `state::BalanceCache::debit`: subtract only when the balance
covers the debit, otherwise leave the balance unchanged. -/
def BalanceCache.debit (balance lamports : Nat) : Nat :=
  if lamports ≤ balance then balance - lamports else balance

/-- The sublist of debits actually applied by a sequence of
`BalanceCache::debit` calls starting from balance `v`: a debit is applied
exactly when the running balance covers it. -/
def appliedDebits (v : Nat) : List Nat → List Nat
  | [] => []
  | n :: ns =>
    if n ≤ v then n :: appliedDebits (v - n) ns else appliedDebits v ns

/-- Model of `state::DevRateLimiter`: the `DashMap<Pubkey, Vec<Instant>>`
as a total function with default `[]` (matching `entry(..).or_default()`). -/
structure DevRateLimiter where
  counts : Pubkey → List Nat

/-- Model of `DevRateLimiter::is_allowed`: drop timestamps older than the
window, record `now`, and compare the new length against the limit.  The
mutation of the `DashMap` entry is returned as the new limiter state. -/
def DevRateLimiter.is_allowed (rl : DevRateLimiter) (developer : Pubkey)
    (limit window now : Nat) : DevRateLimiter × Bool :=
  let entry := rl.counts developer
  let entry := entry.filter (fun ts => decide (now - ts ≤ window))
  let entry := entry ++ [now]
  (⟨fun d => if d = developer then entry else rl.counts d⟩,
   decide (entry.length ≤ limit))

/-- Model of `state::FilterState`. -/
structure FilterState where
  whitelist : List Pubkey
  blacklist : List Pubkey
deriving DecidableEq, Repr

/-- Model of `FilterState::is_whitelisted`. -/
def FilterState.is_whitelisted (s : FilterState) (developer : Pubkey) : Bool :=
  s.whitelist.isEmpty || decide (developer ∈ s.whitelist)

/-- Model of `FilterState::is_blacklisted`. -/
def FilterState.is_blacklisted (s : FilterState) (developer : Pubkey) : Bool :=
  decide (developer ∈ s.blacklist)

/-- Model of `state::BlockhashCache` contents: at most one current hash. -/
abbrev BlockhashCache := Option Hash

/-- Writes performed on the blockhash cache by the background refresher:
a successful refresh calls `update`, a failed refresh only logs. -/
inductive BlockhashOp where
  | update (h : Hash)
  | refreshFail
deriving DecidableEq, Repr

/-- One refresher iteration acting on the cache
(`Ok(hash) => cache.update(hash)`, `Err(_) => log only`). -/
def BlockhashCache.step (s : BlockhashCache) : BlockhashOp → BlockhashCache
  | .update h => some h
  | .refreshFail => s

/-- Model of `state::SniperState` (the `rpc_client` handle is external
I/O and carries no modelled state). -/
structure SniperState where
  filters : FilterState
  rate_limiter : DevRateLimiter
  seen_mints : List Pubkey
  blockhash_cache : BlockhashCache
  balance_cache : Nat

/-! ### Filters (`rust/src/filters.rs`) -/

/-- Model of `filters::FilterDecision`. -/
inductive FilterDecision where
  | Allowed
  | Blacklisted
  | NotWhitelisted
  | RateLimited
  | Duplicate
deriving DecidableEq, Repr

/-- Model of `filters::apply_filters`.  The rate limiter is mutated through
`is_allowed`, so the function returns the decision together with the new
state; `now` is the value `Instant::now()` takes inside `is_allowed`. -/
def apply_filters (event : TokenEvent) (config : Config) (state : SniperState)
    (now : Nat) : FilterDecision × SniperState :=
  if event.mint ∈ state.seen_mints then (.Duplicate, state)
  else if state.filters.is_blacklisted event.developer then (.Blacklisted, state)
  else if !state.filters.is_whitelisted event.developer then (.NotWhitelisted, state)
  else
    let max_per_minute := config.dev_filters.dev_max_tokens_per_min.getD 10
    let res := state.rate_limiter.is_allowed event.developer max_per_minute 60 now
    let state := { state with rate_limiter := res.1 }
    if !res.2 then (.RateLimited, state)
    else (.Allowed, state)

/-! ### Transactions (`rust/src/transactions/builder.rs`) -/

/-- Model of `solana_sdk::instruction::AccountMeta`. -/
structure AccountMeta where
  pubkey : Pubkey
  is_signer : Bool
  is_writable : Bool
deriving DecidableEq, Repr

/-- Model of `AccountMeta::new`: writable account. -/
def AccountMeta.new (pubkey : Pubkey) (is_signer : Bool) : AccountMeta :=
  ⟨pubkey, is_signer, true⟩

/-- Model of `AccountMeta::new_readonly`: read-only account. -/
def AccountMeta.new_readonly (pubkey : Pubkey) (is_signer : Bool) : AccountMeta :=
  ⟨pubkey, is_signer, false⟩

/-- Model of `solana_sdk::instruction::Instruction`. -/
structure Instruction where
  program_id : Pubkey
  accounts : List AccountMeta
  data : List Nat
deriving DecidableEq, Repr

/-- Little-endian byte encoding of a `u64` (`u64::to_le_bytes`), `k` bytes
of fuel; `u64ToLeBytes` below fixes `k = 8`. -/
def natLeBytes : Nat → Nat → List Nat
  | 0, _ => []
  | k + 1, n => n % 256 :: natLeBytes k (n / 256)

/-- Model of `u64::to_le_bytes`: exactly 8 little-endian bytes. -/
def u64ToLeBytes (n : Nat) : List Nat :=
  natLeBytes 8 n

/-- Little-endian byte decoding, inverse of `natLeBytes`. -/
def leBytesToNat : List Nat → Nat
  | [] => 0
  | b :: bs => b + 256 * leBytesToNat bs

/-- Model of `solana_sdk::system_program::ID`, the base58 string of 32 ones,
i.e. 32 zero bytes. -/
def system_program_ID : Pubkey :=
  ⟨List.replicate 32 0⟩

/-- Compute-budget program id (`solana_sdk::compute_budget`), decoded from
its well-known base58 constant. -/
def compute_budget_program_ID : Pubkey :=
  (pubkeyFromStr "ComputeBudget111111111111111111111111111111").getD ⟨[]⟩

/-- Model of `ComputeBudgetInstruction::set_compute_unit_price`: borsh
variant tag 3 followed by the little-endian `u64` price. -/
def set_compute_unit_price (micro_lamports : Nat) : Instruction :=
  { program_id := compute_budget_program_ID
    accounts := []
    data := 3 :: u64ToLeBytes micro_lamports }

/-- Modelled external dependency: `Pubkey::find_program_address` is a
SHA-256-based program-derived-address search living outside this
repository; it is modelled as an opaque deterministic function of the
seeds and the program id (no claim inspects its value). -/
def find_program_address (seeds : List (List Nat)) (pid : Pubkey) : Pubkey × Nat :=
  (⟨(seeds.foldr (· ++ ·) []) ++ pid.bytes⟩, 255)

/-- Model of `transactions::TransactionBuilder` (the payer keypair is
represented by its public key, the only part the builder reads). -/
structure TransactionBuilder where
  config : Config
  payer : Pubkey
  blockhash_cache : BlockhashCache
  program_id : Pubkey

/-- Model of `TransactionBuilder::new`. -/
def TransactionBuilder.new (config : Config) (payer : Pubkey)
    (blockhash_cache : BlockhashCache) : Except String TransactionBuilder :=
  match config.program_id with
  | .ok pid => .ok ⟨config, payer, blockhash_cache, pid⟩
  | .error e => .error e

/-- Model of a signed `solana_sdk::transaction::Transaction`: the message
is its instruction list with the fee payer, signed with the recent
blockhash. -/
structure Transaction where
  instructions : List Instruction
  payer : Pubkey
  recent_blockhash : Hash
deriving DecidableEq, Repr

/-- Model of `TransactionBuilder::pump_fun_buy_instruction`. -/
def TransactionBuilder.pump_fun_buy_instruction (b : TransactionBuilder)
    (event : TokenEvent) (lamports : Nat) : Instruction :=
  { program_id := b.program_id
    accounts :=
      [ AccountMeta.new event.mint false
      , AccountMeta.new b.payer true
      , AccountMeta.new_readonly system_program_ID false ]
    data := u64ToLeBytes lamports ++ event.developer.bytes }

/-- Model of `TransactionBuilder::create_associated_token_account`. -/
def TransactionBuilder.create_associated_token_account (b : TransactionBuilder)
    (mint : Pubkey) : Except String Instruction :=
  match pubkeyFromStr "TokenkegQfeZyiNwAJbNbGKPFXCWuBvf9Ss623VQ5DA",
        pubkeyFromStr "ATokenGPvbdGVxr1b2hvZbsiqW5xWH25efTNsLJA8knL" with
  | some token_program, some ata_program =>
    let ata := (find_program_address
      [b.payer.bytes, token_program.bytes, mint.bytes] ata_program).1
    .ok
      { program_id := ata_program
        accounts :=
          [ AccountMeta.new b.payer true
          , AccountMeta.new ata false
          , AccountMeta.new_readonly b.payer false
          , AccountMeta.new_readonly mint false
          , AccountMeta.new_readonly system_program_ID false
          , AccountMeta.new_readonly token_program false ]
        data := [] }
  | _, _ => .error "invalid well-known program id"

/-- Model of `TransactionBuilder::build_buy_transaction`. -/
def TransactionBuilder.build_buy_transaction (b : TransactionBuilder)
    (event : TokenEvent) (lamports : Nat) : Except String (Option Transaction) :=
  match b.blockhash_cache with
  | none => .ok none
  | some blockhash =>
    let fee_instrs :=
      match b.config.fee_config.priority_fee_lamports with
      | some priority_fee => [set_compute_unit_price priority_fee]
      | none => []
    match b.create_associated_token_account event.mint with
    | .error e => .error e
    | .ok ata_instr =>
      let buy_instr := b.pump_fun_buy_instruction event lamports
      .ok (some
        { instructions := fee_instrs ++ [ata_instr, buy_instr]
          payer := b.payer
          recent_blockhash := blockhash })

/-! ### Dispatch (`rust/src/transactions/dispatch.rs`) -/

/-- The three submission paths of `dispatch_transaction`. -/
inductive DispatchPath where
  | primaryRpc
  | jitoBundle
  | nozomiHttp
deriving DecidableEq, Repr

/-- The paths launched by `dispatch_transaction` for a given config:
always the primary RPC, then the Jito bundle path when `jito_api_url` is
set, then the alternate HTTP path when `nozomi_rpc_url` is set. -/
def dispatch_paths (c : Config) : List DispatchPath :=
  [.primaryRpc]
    ++ (match c.endpoints.jito_api_url with
        | some _ => [.jitoBundle]
        | none => [])
    ++ (match c.endpoints.nozomi_rpc_url with
        | some _ => [.nozomiHttp]
        | none => [])

/-- Semantics of `futures::future::select_ok` over the outcomes of the
racing futures listed in completion order: the first success wins; when
every future fails, the error of the last future to complete is returned;
`none` only for an empty race. -/
def selectOk {E A : Type} : List (Except E A) → Option (Except E A)
  | [] => none
  | x :: xs =>
    match x with
    | .ok a => some (.ok a)
    | .error e =>
      match selectOk xs with
      | none => some (.error e)
      | some r => some r

/-- Model of `dispatch_transaction`: the configured paths race; `outcome`
gives the result each path would produce and `completion_order` lists the
configured paths in the order they complete. -/
def dispatch_transaction (c : Config) (outcome : DispatchPath → Except String Signature)
    (completion_order : List DispatchPath) : Option (Except String Signature) :=
  selectOk (completion_order.map outcome)

/-! ### WebSocket subscriber (`rust/src/events/websocket.rs`)

The committed file contains unresolved merge-conflict remnants: one
variant (labelled `codex/convert-pump.fun-sniper-bot-to-rust` in the
conflict residue) builds a `logsSubscribe` JSON-RPC request from the
configured program id and sends it as the first message after connecting;
the other variant (labelled `main`) sends the literal text `"\x7b\x7d"`
(an empty JSON object) as the first message.  Both variants are embedded
below.  JSON values are compared as trees, so serde_json key ordering is
irrelevant. -/

/-- A small JSON value tree (numbers restricted to the naturals actually
occurring in the emitted requests). -/
inductive Json where
  | str (s : String)
  | num (n : Nat)
  | arr (elems : List Json)
  | obj (fields : List (String × Json))
deriving Repr

/-- First message sent after connecting, in the codex conflict variant:
the `logsSubscribe` request built by the `json!` block from the program id
string `config.program_id()?.to_string()`. -/
def websocket_first_message_codex (program_id : String) : Json :=
  .obj
    [ ("jsonrpc", .str "2.0")
    , ("id", .num 1)
    , ("method", .str "logsSubscribe")
    , ("params", .arr
        [ .obj [("mentions", .arr [.str program_id])]
        , .obj [("commitment", .str "processed")] ]) ]

/-- First message sent after connecting, in the main conflict variant: the
literal text `"\x7b\x7d"`, i.e. the empty JSON object. -/
def websocket_first_message_main : Json :=
  .obj []

/-! ### Main loop (`rust/src/main.rs`) -/

/-- Observable outcome of one `handle_event` call: the state after the
call, the filter decision, the built transaction when one was built, and
whether a dispatch was attempted with which resulting signature.  `error`
is the `Err` value propagated by `handle_event`, when any. -/
structure HandleResult where
  state : SniperState
  decision : FilterDecision
  built : Option Transaction := none
  dispatched : Bool := false
  signature : Option Signature := none
  error : Option String := none

/-- Model of `main::handle_event`.  Network dispatch is an external
effect: `dispatch_result` is the value `dispatch_transaction` would
return when a dispatch happens. -/
def handle_event (config : Config) (state : SniperState)
    (builder : TransactionBuilder) (now : Nat)
    (dispatch_result : Except String Signature) (event : TokenEvent) :
    HandleResult :=
  match apply_filters event config state now with
  | (.Blacklisted, st) => { state := st, decision := .Blacklisted }
  | (.NotWhitelisted, st) => { state := st, decision := .NotWhitelisted }
  | (.RateLimited, st) => { state := st, decision := .RateLimited }
  | (.Duplicate, st) => { state := st, decision := .Duplicate }
  | (.Allowed, st) =>
    let st := { st with seen_mints := event.mint :: st.seen_mints }
    match config.compute_buy_amount st.balance_cache with
    | .error e => { state := st, decision := .Allowed, error := some e }
    | .ok spend_lamports =>
      match builder.build_buy_transaction event spend_lamports with
      | .error e => { state := st, decision := .Allowed, error := some e }
      | .ok none => { state := st, decision := .Allowed }
      | .ok (some transaction) =>
        if config.dryRun then
          { state := st, decision := .Allowed, built := some transaction }
        else
          match dispatch_result with
          | .ok signature =>
            { state :=
                { st with balance_cache :=
                    BalanceCache.debit st.balance_cache spend_lamports }
              decision := .Allowed
              built := some transaction
              dispatched := true
              signature := some signature }
          | .error _ =>
            { state := st, decision := .Allowed, built := some transaction
              dispatched := true }

/-! ### Concrete values used by witnesses -/

/-- A concrete well-formed payer key. -/
def examplePayer : Pubkey := ⟨List.replicate 32 2⟩

/-- A concrete well-formed mint key. -/
def exampleMint : Pubkey := ⟨List.replicate 32 3⟩

/-- A concrete well-formed developer key. -/
def exampleDev : Pubkey := ⟨List.replicate 32 4⟩

/-- A concrete event. -/
def exampleEvent : TokenEvent := ⟨exampleMint, exampleDev, .WebSocket⟩

/-- A concrete configuration with a valid explicit program id. -/
def exampleConfig : Config :=
  { endpoints :=
      { rpc_http_url := "http://localhost:8899"
        ws_url := none
        laserstream_grpc_url := none
        jito_api_url := none
        nozomi_rpc_url := none }
    keypair_path := "payer.json"
    pump_fun_program := some "TokenkegQfeZyiNwAJbNbGKPFXCWuBvf9Ss623VQ5DA"
    purchase_strategy := .FixedSol 1
    max_slippage_bps := none
    fee_config :=
      { priority_fee_lamports := none
        use_jito_tip := none
        jito_tip_lamports := none }
    profit_guard := none
    dev_filters :=
      { dev_whitelist := none
        dev_blacklist := none
        dev_max_tokens_per_min := none }
    dry_run := none
    log_level := none
    blockhash_refresh_ms := none
    balance_refresh_ms := none }

/-- A rate limiter with no recorded timestamps (fresh `DashMap`). -/
def emptyLimiter : DevRateLimiter := ⟨fun _ => []⟩

/-- A concrete pipeline state: empty lists, empty caches. -/
def exampleState : SniperState :=
  { filters := ⟨[], []⟩
    rate_limiter := emptyLimiter
    seen_mints := []
    blockhash_cache := none
    balance_cache := 1000000000 }

/-- The `exampleConfig` with `pump_fun_program` left unset, so that
`program_id()` falls back to the default string. -/
def defaultProgramConfig : Config :=
  { exampleConfig with pump_fun_program := none }

/-- Top-level field lookup in a JSON object value. -/
def Json.topField (j : Json) (k : String) : Option Json :=
  match j with
  | .obj fields => (fields.find? (fun p => p.1 = k)).map Prod.snd
  | _ => none

/-- The example config with a bundle endpoint configured, so two dispatch
paths race. -/
def exampleDispatchConfig : Config :=
  { exampleConfig with endpoints :=
      { exampleConfig.endpoints with jito_api_url := some "http://jito" } }

/-- Concrete race outcomes: the primary RPC succeeds, the others fail. -/
def exampleOutcomeMixed : DispatchPath → Except String Signature
  | .primaryRpc => .ok ⟨1⟩
  | .jitoBundle => .error "bundle failed"
  | .nozomiHttp => .error "http failed"

/-- Concrete race outcomes: every path fails. -/
def exampleOutcomeAllErr : DispatchPath → Except String Signature
  | .primaryRpc => .error "rpc failed"
  | .jitoBundle => .error "bundle failed"
  | .nozomiHttp => .error "http failed"

/-- The entry update performed by one `is_allowed` call: prune timestamps
older than the window, then record `now`. -/
def rlRecord (window : Nat) (entry : List Nat) (now : Nat) : List Nat :=
  entry.filter (fun ts => decide (now - ts ≤ window)) ++ [now]

/-- The (instant, result) trace of a sequence of `is_allowed(dev, L, W)`
calls at the given instants, threading the limiter state through. -/
def isAllowedTrace (dev : Pubkey) (limit window : Nat) :
    DevRateLimiter → List Nat → List (Nat × Bool)
  | _, [] => []
  | rl, t :: ts =>
    (t, (rl.is_allowed dev limit window t).2)
      :: isAllowedTrace dev limit window (rl.is_allowed dev limit window t).1 ts

/-- The same trace expressed directly on the one developer entry. -/
def rlTrace (limit window : Nat) : List Nat → List Nat → List (Nat × Bool)
  | _, [] => []
  | entry, t :: ts =>
    (t, decide ((rlRecord window entry t).length ≤ limit))
      :: rlTrace limit window (rlRecord window entry t) ts

/-- Number of `true` results of a trace whose instants lie inside the
window `[a, a + W]`. -/
def windowTrueCount (a window : Nat) (trace : List (Nat × Bool)) : Nat :=
  (trace.filter
    (fun p => decide (a ≤ p.1) && decide (p.1 ≤ a + window) && p.2)).length

/-- Number of stored timestamps at or after `a`. -/
def countGe (a : Nat) (entry : List Nat) : Nat :=
  entry.countP (fun ts => decide (a ≤ ts))

/-! ## Helper lemmas -/

theorem debit_foldl (ns : List Nat) :
    ∀ v, List.foldl BalanceCache.debit v ns = v - (appliedDebits v ns).sum ∧
      (appliedDebits v ns).sum ≤ v := by
  induction ns with
  | nil => intro v; simp [appliedDebits]
  | cons n ns ih =>
    intro v
    simp only [List.foldl_cons, appliedDebits, BalanceCache.debit]
    by_cases h : n ≤ v
    · simp only [if_pos h, List.sum_cons]
      obtain ⟨h1, h2⟩ := ih (v - n)
      refine ⟨by rw [h1]; omega, by omega⟩
    · simp only [if_neg h]
      exact ih v

theorem blockhash_foldl_some (post : List BlockhashOp) :
    ∀ (s : BlockhashCache), s.isSome = true →
      (List.foldl BlockhashCache.step s post).isSome = true := by
  induction post with
  | nil => intro s h; simpa using h
  | cons op ops ih =>
    intro s h
    cases op with
    | update h2 => exact ih _ rfl
    | refreshFail => exact ih _ h

/-! ## Claims -/

/-- C3: `BalanceCache::debit(n)` leaves the balance unchanged when it is
below `n` and subtracts exactly `n` otherwise, so the balance never
underflows; after `set(v)` and any sequence of debits the balance equals
`v` minus the sum of the debits actually applied, a sum that never
exceeds `v` (hence the balance stays at or above `v` minus that sum, and
at or above zero). -/
theorem balance_debit_no_underflow :
    (∀ b n, b < n → BalanceCache.debit b n = b) ∧
    (∀ b n, n ≤ b → BalanceCache.debit b n = b - n) ∧
    (∀ v ns, List.foldl BalanceCache.debit v ns = v - (appliedDebits v ns).sum ∧
      (appliedDebits v ns).sum ≤ v) := by
  refine ⟨?_, ?_, ?_⟩
  · intro b n h; unfold BalanceCache.debit; rw [if_neg (by omega)]
  · intro b n h; unfold BalanceCache.debit; rw [if_pos h]
  · intro v ns; exact debit_foldl ns v

/-- Witness for C3 at concrete balances and debit sequences. -/
theorem balance_debit_no_underflow_witness :
    BalanceCache.debit 5 7 = 5 ∧
    BalanceCache.debit 10 3 = 7 ∧
    List.foldl BalanceCache.debit 100 [30, 200, 50]
      = 100 - (appliedDebits 100 [30, 200, 50]).sum ∧
    (appliedDebits 100 [30, 200, 50]).sum ≤ 100 :=
  ⟨balance_debit_no_underflow.1 5 7 (by decide),
   by rw [balance_debit_no_underflow.2.1 10 3 (by decide)],
   (balance_debit_no_underflow.2.2 100 [30, 200, 50]).1,
   (balance_debit_no_underflow.2.2 100 [30, 200, 50]).2⟩

/-- C9: every write on the blockhash cache preserves presence of a cached
value, a failed refresh retains the cache unchanged, and after any
operation sequence containing at least one `update` the cache (and hence
`latest()`) is never empty again. -/
theorem blockhash_cache_persistent :
    (∀ (s : BlockhashCache) (op : BlockhashOp),
        s.isSome = true → (BlockhashCache.step s op).isSome = true) ∧
    (∀ (s : BlockhashCache), BlockhashCache.step s .refreshFail = s) ∧
    (∀ (init : BlockhashCache) (pre : List BlockhashOp) (h : Hash)
        (post : List BlockhashOp),
        (List.foldl BlockhashCache.step init
          (pre ++ BlockhashOp.update h :: post)).isSome = true) := by
  refine ⟨?_, fun s => rfl, ?_⟩
  · intro s op h
    cases op with
    | update h2 => rfl
    | refreshFail => exact h
  · intro init pre h post
    rw [List.foldl_append, List.foldl_cons]
    exact blockhash_foldl_some post _ rfl

/-- Witness for C9 at a concrete operation sequence. -/
theorem blockhash_cache_persistent_witness :
    (BlockhashCache.step (some ⟨5⟩) .refreshFail).isSome = true ∧
    (List.foldl BlockhashCache.step none
      ([.refreshFail] ++ BlockhashOp.update ⟨1⟩
        :: [.refreshFail, .update ⟨2⟩, .refreshFail])).isSome = true :=
  ⟨blockhash_cache_persistent.1 (some ⟨5⟩) .refreshFail rfl,
   blockhash_cache_persistent.2.2 none [.refreshFail] ⟨1⟩
     [.refreshFail, .update ⟨2⟩, .refreshFail]⟩

/-- C5 counterexample: with `pump_fun_program` absent, `program_id()`
falls back to the default string, but that string base58-decodes to 23
bytes rather than 32, so `Pubkey::from_str` rejects it and `program_id()`
returns an error instead of successfully returning a key. -/
theorem default_program_id_rejected :
    defaultProgramConfig.pump_fun_program = none ∧
    Config.program_id defaultProgramConfig
      = Except.error "Invalid pump.fun program id" ∧
    (base58DecodeBytes ("5eykt4UsFv8P8NJdTREpY1vzqKqZKvdp".toList)).map
      List.length = some 23 :=
  ⟨rfl, rfl, rfl⟩

/-- C5 amended: whenever `pump_fun_program` is absent, `program_id()`
uses the default string `"5eykt4UsFv8P8NJdTREpY1vzqKqZKvdp"`, which
decodes to fewer than 32 bytes, so `program_id()` returns an error and
startup aborts (invalid base58 keys abort startup, the default included). -/
theorem program_id_default_errors :
    ∀ c : Config, c.pump_fun_program = none →
      Config.program_id c = Except.error "Invalid pump.fun program id" := by
  intro c h
  unfold Config.program_id
  rw [h]
  rfl

/-- Witness for the amended C5 at a concrete configuration. -/
theorem program_id_default_errors_witness :
    defaultProgramConfig.pump_fun_program = none ∧
    Config.program_id defaultProgramConfig
      = Except.error "Invalid pump.fun program id" :=
  ⟨rfl, program_id_default_errors defaultProgramConfig rfl⟩

/-- C6: the committed `websocket.rs` holds two merge-conflict variants of
the first message sent after connecting.  The codex variant builds
exactly the claimed `logsSubscribe` request for the configured program
id; the main variant sends the empty JSON object (the literal text of an
opening and a closing brace), which carries no method at all, so the
claimed subscription message is not sent by that variant. -/
theorem websocket_first_message_conflict :
    (∀ pid : String,
      websocket_first_message_codex pid =
        Json.obj
          [ ("jsonrpc", .str "2.0")
          , ("id", .num 1)
          , ("method", .str "logsSubscribe")
          , ("params", .arr
              [ .obj [("mentions", .arr [.str pid])]
              , .obj [("commitment", .str "processed")] ]) ]) ∧
    (∀ pid : String,
      (websocket_first_message_codex pid).topField "method"
        = some (.str "logsSubscribe")) ∧
    websocket_first_message_main.topField "method" = none ∧
    (websocket_first_message_main.topField "jsonrpc" = none) := by
  exact ⟨fun pid => rfl, fun pid => rfl, rfl, rfl⟩

theorem is_allowed_counts_self (rl : DevRateLimiter) (dev : Pubkey) (L W now : Nat) :
    ((rl.is_allowed dev L W now).1).counts dev
      = (rl.counts dev).filter (fun ts => decide (now - ts ≤ W)) ++ [now] := by
  simp [DevRateLimiter.is_allowed]

theorem is_allowed_counts_other (rl : DevRateLimiter) (dev : Pubkey) (L W now : Nat)
    (d : Pubkey) (h : d ≠ dev) :
    ((rl.is_allowed dev L W now).1).counts d = rl.counts d := by
  simp [DevRateLimiter.is_allowed, h]

theorem is_allowed_snd (rl : DevRateLimiter) (dev : Pubkey) (L W now : Nat) :
    (rl.is_allowed dev L W now).2
      = decide (((rl.is_allowed dev L W now).1.counts dev).length ≤ L) := by
  simp [DevRateLimiter.is_allowed]

theorem apply_filters_duplicate (e : TokenEvent) (c : Config) (s : SniperState)
    (now : Nat) (h : e.mint ∈ s.seen_mints) :
    apply_filters e c s now = (.Duplicate, s) := by
  unfold apply_filters
  rw [if_pos h]

theorem apply_filters_blacklisted (e : TokenEvent) (c : Config) (s : SniperState)
    (now : Nat) (h1 : e.mint ∉ s.seen_mints)
    (h2 : e.developer ∈ s.filters.blacklist) :
    apply_filters e c s now = (.Blacklisted, s) := by
  unfold apply_filters
  rw [if_neg h1, if_pos (by simp [FilterState.is_blacklisted, h2])]

theorem apply_filters_not_whitelisted (e : TokenEvent) (c : Config) (s : SniperState)
    (now : Nat) (h1 : e.mint ∉ s.seen_mints)
    (h2 : e.developer ∉ s.filters.blacklist)
    (h3 : s.filters.whitelist ≠ []) (h4 : e.developer ∉ s.filters.whitelist) :
    apply_filters e c s now = (.NotWhitelisted, s) := by
  unfold apply_filters
  rw [if_neg h1, if_neg (by simp [FilterState.is_blacklisted, h2]),
    if_pos (by simp [FilterState.is_whitelisted, List.isEmpty_iff, h3, h4])]

theorem apply_filters_pass (e : TokenEvent) (c : Config) (s : SniperState)
    (now : Nat) (h1 : e.mint ∉ s.seen_mints)
    (h2 : e.developer ∉ s.filters.blacklist)
    (h3 : s.filters.whitelist = [] ∨ e.developer ∈ s.filters.whitelist) :
    apply_filters e c s now =
      (if (s.rate_limiter.is_allowed e.developer
            (c.dev_filters.dev_max_tokens_per_min.getD 10) 60 now).2
        then FilterDecision.Allowed else FilterDecision.RateLimited,
       { s with rate_limiter :=
          (s.rate_limiter.is_allowed e.developer
            (c.dev_filters.dev_max_tokens_per_min.getD 10) 60 now).1 }) := by
  unfold apply_filters
  rw [if_neg h1, if_neg (by simp [FilterState.is_blacklisted, h2]),
    if_neg (by simp [FilterState.is_whitelisted, List.isEmpty_iff]; tauto)]
  rcases hres : s.rate_limiter.is_allowed e.developer
    (c.dev_filters.dev_max_tokens_per_min.getD 10) 60 now with ⟨rl2, ok⟩
  cases ok <;> simp [hres]

/-- C1: `apply_filters` returns the first matching verdict of the fixed
evaluation order Duplicate, Blacklisted, NotWhitelisted, RateLimited,
Allowed, characterised extensionally: each verdict holds exactly when its
condition is the first to match; in particular a developer in both the
whitelist and the blacklist (with an unseen mint) is Blacklisted. -/
theorem filters_first_match_order :
    ∀ (e : TokenEvent) (c : Config) (s : SniperState) (now : Nat),
      ((apply_filters e c s now).1 = FilterDecision.Duplicate ↔
        e.mint ∈ s.seen_mints) ∧
      ((apply_filters e c s now).1 = FilterDecision.Blacklisted ↔
        e.mint ∉ s.seen_mints ∧ e.developer ∈ s.filters.blacklist) ∧
      ((apply_filters e c s now).1 = FilterDecision.NotWhitelisted ↔
        e.mint ∉ s.seen_mints ∧ e.developer ∉ s.filters.blacklist ∧
        s.filters.whitelist ≠ [] ∧ e.developer ∉ s.filters.whitelist) ∧
      ((apply_filters e c s now).1 = FilterDecision.RateLimited ↔
        e.mint ∉ s.seen_mints ∧ e.developer ∉ s.filters.blacklist ∧
        (s.filters.whitelist = [] ∨ e.developer ∈ s.filters.whitelist) ∧
        (s.rate_limiter.is_allowed e.developer
          (c.dev_filters.dev_max_tokens_per_min.getD 10) 60 now).2 = false) ∧
      ((apply_filters e c s now).1 = FilterDecision.Allowed ↔
        e.mint ∉ s.seen_mints ∧ e.developer ∉ s.filters.blacklist ∧
        (s.filters.whitelist = [] ∨ e.developer ∈ s.filters.whitelist) ∧
        (s.rate_limiter.is_allowed e.developer
          (c.dev_filters.dev_max_tokens_per_min.getD 10) 60 now).2 = true) ∧
      (e.mint ∉ s.seen_mints → e.developer ∈ s.filters.whitelist →
        e.developer ∈ s.filters.blacklist →
        (apply_filters e c s now).1 = FilterDecision.Blacklisted) := by
  intro e c s now
  by_cases h1 : e.mint ∈ s.seen_mints
  · rw [apply_filters_duplicate e c s now h1]
    simp [h1]
  · by_cases h2 : e.developer ∈ s.filters.blacklist
    · rw [apply_filters_blacklisted e c s now h1 h2]
      simp [h1, h2]
    · by_cases h3 : s.filters.whitelist = [] ∨ e.developer ∈ s.filters.whitelist
      · rw [apply_filters_pass e c s now h1 h2 h3]
        rcases hr : s.rate_limiter.is_allowed e.developer
          (c.dev_filters.dev_max_tokens_per_min.getD 10) 60 now with ⟨rl2, ok⟩
        cases ok <;> simp [h1, h2, h3, hr] <;> tauto
      · push_neg at h3
        rw [apply_filters_not_whitelisted e c s now h1 h2 h3.1 h3.2]
        simp [h1, h2, h3.1, h3.2]

/-- Witness for C1: a developer in both lists is Blacklisted, and a fresh
state yields Allowed. -/
theorem filters_first_match_order_witness :
    exampleMint ∉
      ({ exampleState with filters := ⟨[exampleDev], [exampleDev]⟩ } :
        SniperState).seen_mints ∧
    exampleDev ∈
      ({ exampleState with filters := ⟨[exampleDev], [exampleDev]⟩ } :
        SniperState).filters.whitelist ∧
    exampleDev ∈
      ({ exampleState with filters := ⟨[exampleDev], [exampleDev]⟩ } :
        SniperState).filters.blacklist ∧
    (apply_filters exampleEvent exampleConfig
      { exampleState with filters := ⟨[exampleDev], [exampleDev]⟩ } 5).1
      = FilterDecision.Blacklisted ∧
    ((apply_filters exampleEvent exampleConfig exampleState 5).1
      = FilterDecision.Allowed ↔
      exampleMint ∉ exampleState.seen_mints ∧
      exampleDev ∉ exampleState.filters.blacklist ∧
      (exampleState.filters.whitelist = [] ∨
        exampleDev ∈ exampleState.filters.whitelist) ∧
      (exampleState.rate_limiter.is_allowed exampleDev
        (exampleConfig.dev_filters.dev_max_tokens_per_min.getD 10) 60 5).2
        = true) :=
  ⟨by decide, by decide, by decide,
   (filters_first_match_order exampleEvent exampleConfig
      { exampleState with filters := ⟨[exampleDev], [exampleDev]⟩ } 5).2.2.2.2.2
      (by decide) (by decide) (by decide),
   (filters_first_match_order exampleEvent exampleConfig exampleState 5).2.2.2.2.1⟩

/-- C10: when the verdict is Duplicate, Blacklisted or NotWhitelisted the
rate limiter is left completely unchanged; when evaluation reaches the
rate-limit check — exactly the RateLimited and Allowed verdicts — the
timestamp `now` is recorded for the developer (appended after pruning)
and no other developer entry changes. -/
theorem filters_rate_limiter_frame :
    ∀ (e : TokenEvent) (c : Config) (s : SniperState) (now : Nat),
      (((apply_filters e c s now).1 = FilterDecision.Duplicate ∨
        (apply_filters e c s now).1 = FilterDecision.Blacklisted ∨
        (apply_filters e c s now).1 = FilterDecision.NotWhitelisted) →
        (apply_filters e c s now).2.rate_limiter = s.rate_limiter) ∧
      (((apply_filters e c s now).1 = FilterDecision.RateLimited ∨
        (apply_filters e c s now).1 = FilterDecision.Allowed) →
        ((apply_filters e c s now).2.rate_limiter.counts e.developer
          = (s.rate_limiter.counts e.developer).filter
              (fun ts => decide (now - ts ≤ 60)) ++ [now]) ∧
        (∀ d, d ≠ e.developer →
          (apply_filters e c s now).2.rate_limiter.counts d
            = s.rate_limiter.counts d)) := by
  intro e c s now
  by_cases h1 : e.mint ∈ s.seen_mints
  · rw [apply_filters_duplicate e c s now h1]
    simp
  · by_cases h2 : e.developer ∈ s.filters.blacklist
    · rw [apply_filters_blacklisted e c s now h1 h2]
      simp
    · by_cases h3 : s.filters.whitelist = [] ∨ e.developer ∈ s.filters.whitelist
      · rw [apply_filters_pass e c s now h1 h2 h3]
        have hcounts := is_allowed_counts_self s.rate_limiter e.developer
          (c.dev_filters.dev_max_tokens_per_min.getD 10) 60 now
        have hother := is_allowed_counts_other s.rate_limiter e.developer
          (c.dev_filters.dev_max_tokens_per_min.getD 10) 60 now
        rcases hr : s.rate_limiter.is_allowed e.developer
          (c.dev_filters.dev_max_tokens_per_min.getD 10) 60 now with ⟨rl2, ok⟩
        rw [hr] at hcounts hother
        cases ok with
        | false =>
          refine ⟨fun h => ?_, fun _ => ⟨hcounts, fun d hd => hother d hd⟩⟩
          rcases h with h | h | h <;> simp at h
        | true =>
          refine ⟨fun h => ?_, fun _ => ⟨hcounts, fun d hd => hother d hd⟩⟩
          rcases h with h | h | h <;> simp at h
      · push_neg at h3
        rw [apply_filters_not_whitelisted e c s now h1 h2 h3.1 h3.2]
        simp

/-- Witness for C10: a Duplicate verdict leaves the limiter unchanged and
an Allowed verdict records the timestamp. -/
theorem filters_rate_limiter_frame_witness :
    ((apply_filters exampleEvent exampleConfig
        { exampleState with seen_mints := [exampleMint] } 5).2.rate_limiter
      = ({ exampleState with seen_mints := [exampleMint] } :
          SniperState).rate_limiter) ∧
    ((apply_filters exampleEvent exampleConfig exampleState 5).2.rate_limiter.counts
        exampleDev
      = (exampleState.rate_limiter.counts exampleDev).filter
          (fun ts => decide (5 - ts ≤ 60)) ++ [5]) :=
  ⟨(filters_rate_limiter_frame exampleEvent exampleConfig
      { exampleState with seen_mints := [exampleMint] } 5).1
      (Or.inl (by decide)),
   ((filters_rate_limiter_frame exampleEvent exampleConfig exampleState 5).2
      (Or.inr (by decide))).1⟩

theorem build_none_of_blockhash_none (b : TransactionBuilder) (e : TokenEvent)
    (lamports : Nat) (h : b.blockhash_cache = none) :
    b.build_buy_transaction e lamports = Except.ok none := by
  unfold TransactionBuilder.build_buy_transaction
  rw [h]

theorem apply_filters_balance (e : TokenEvent) (c : Config) (s : SniperState)
    (now : Nat) : (apply_filters e c s now).2.balance_cache = s.balance_cache := by
  by_cases h1 : e.mint ∈ s.seen_mints
  · rw [apply_filters_duplicate e c s now h1]
  · by_cases h2 : e.developer ∈ s.filters.blacklist
    · rw [apply_filters_blacklisted e c s now h1 h2]
    · by_cases h3 : s.filters.whitelist = [] ∨ e.developer ∈ s.filters.whitelist
      · rw [apply_filters_pass e c s now h1 h2 h3]
      · push_neg at h3
        rw [apply_filters_not_whitelisted e c s now h1 h2 h3.1 h3.2]

/-- C7: when the blockhash cache is empty, `build_buy_transaction` returns
`Ok(None)`; consequently on an Allowed event `handle_event` attempts no
dispatch, builds no transaction, and leaves the balance cache untouched —
the event is skipped with the balance unchanged. -/
theorem empty_blockhash_skips_event :
    (∀ (b : TransactionBuilder) (e : TokenEvent) (lamports : Nat),
        b.blockhash_cache = none →
        b.build_buy_transaction e lamports = Except.ok none) ∧
    (∀ (c : Config) (s : SniperState) (b : TransactionBuilder) (now : Nat)
        (dr : Except String Signature) (e : TokenEvent),
        b.blockhash_cache = none →
        (apply_filters e c s now).1 = FilterDecision.Allowed →
        (handle_event c s b now dr e).dispatched = false ∧
        (handle_event c s b now dr e).built = none ∧
        (handle_event c s b now dr e).state.balance_cache = s.balance_cache) := by
  refine ⟨build_none_of_blockhash_none, ?_⟩
  intro c s b now dr e hb hdec
  have hbal := apply_filters_balance e c s now
  unfold handle_event
  rcases hpair : apply_filters e c s now with ⟨d, st⟩
  rw [hpair] at hdec hbal
  simp only at hdec hbal
  subst hdec
  rcases hca : c.compute_buy_amount st.balance_cache with err | spend
  · have hca2 : c.compute_buy_amount
        ({ st with seen_mints := e.mint :: st.seen_mints } :
          SniperState).balance_cache = Except.error err := hca
    simp only [hca2]
    simp [hbal]
  · have hca2 : c.compute_buy_amount
        ({ st with seen_mints := e.mint :: st.seen_mints } :
          SniperState).balance_cache = Except.ok spend := hca
    simp only [hca2, build_none_of_blockhash_none b e spend hb]
    simp [hbal]

/-- Witness for C7: an Allowed event on the example state with an empty
blockhash cache is skipped without dispatch or debit. -/
theorem empty_blockhash_skips_event_witness :
    (TransactionBuilder.mk exampleConfig examplePayer none
        examplePayer).build_buy_transaction exampleEvent 7 = Except.ok none ∧
    (handle_event exampleConfig exampleState
        (TransactionBuilder.mk exampleConfig examplePayer none examplePayer) 5
        (Except.error "unused") exampleEvent).dispatched = false ∧
    (handle_event exampleConfig exampleState
        (TransactionBuilder.mk exampleConfig examplePayer none examplePayer) 5
        (Except.error "unused") exampleEvent).built = none ∧
    (handle_event exampleConfig exampleState
        (TransactionBuilder.mk exampleConfig examplePayer none examplePayer) 5
        (Except.error "unused") exampleEvent).state.balance_cache
      = exampleState.balance_cache :=
  ⟨empty_blockhash_skips_event.1 _ exampleEvent 7 rfl,
   (empty_blockhash_skips_event.2 exampleConfig exampleState _ 5
      (Except.error "unused") exampleEvent rfl (by decide)).1,
   (empty_blockhash_skips_event.2 exampleConfig exampleState _ 5
      (Except.error "unused") exampleEvent rfl (by decide)).2.1,
   (empty_blockhash_skips_event.2 exampleConfig exampleState _ 5
      (Except.error "unused") exampleEvent rfl (by decide)).2.2⟩

theorem natLeBytes_length : ∀ (k n : Nat), (natLeBytes k n).length = k := by
  intro k
  induction k with
  | zero => intro n; rfl
  | succ k ih => intro n; simp [natLeBytes, ih]

theorem leBytesToNat_natLeBytes : ∀ (k n : Nat),
    leBytesToNat (natLeBytes k n) = n % 256 ^ k := by
  intro k
  induction k with
  | zero => intro n; simp [natLeBytes, leBytesToNat, Nat.mod_one]
  | succ k ih =>
    intro n
    show n % 256 + 256 * leBytesToNat (natLeBytes k (n / 256)) = n % 256 ^ (k + 1)
    rw [ih, pow_succ', Nat.mod_mul]

/-- C4: the buy instruction built by the builder targets the configured
buy program (the one `TransactionBuilder::new` decoded from the config),
carries exactly the account list [mint writable non-signer, payer
writable signer, system program readonly non-signer], and its data is
exactly the 8-byte little-endian `lamports` followed by the 32 developer
key bytes — 40 bytes that decode back to `lamports` and the developer. -/
theorem buy_instruction_layout :
    (∀ (c : Config) (p : Pubkey) (bh : BlockhashCache) (b : TransactionBuilder),
        TransactionBuilder.new c p bh = Except.ok b →
        c.program_id = Except.ok b.program_id) ∧
    (∀ (b : TransactionBuilder) (e : TokenEvent) (lamports : Nat),
        lamports < 2 ^ 64 → e.developer.wf →
        (b.pump_fun_buy_instruction e lamports).program_id = b.program_id ∧
        (b.pump_fun_buy_instruction e lamports).accounts =
          [ AccountMeta.new e.mint false
          , AccountMeta.new b.payer true
          , AccountMeta.new_readonly system_program_ID false ] ∧
        (b.pump_fun_buy_instruction e lamports).data
          = u64ToLeBytes lamports ++ e.developer.bytes ∧
        (b.pump_fun_buy_instruction e lamports).data.length = 40 ∧
        (b.pump_fun_buy_instruction e lamports).data.take 8
          = u64ToLeBytes lamports ∧
        leBytesToNat ((b.pump_fun_buy_instruction e lamports).data.take 8)
          = lamports ∧
        (b.pump_fun_buy_instruction e lamports).data.drop 8
          = e.developer.bytes) := by
  constructor
  · intro c p bh b hnew
    unfold TransactionBuilder.new at hnew
    rcases hpid : c.program_id with err | pid <;> rw [hpid] at hnew
    · exact absurd hnew (by simp)
    · simp only [Except.ok.injEq] at hnew
      rw [← hnew]
  · intro b e lamports hlt hwf
    have hlen8 : (u64ToLeBytes lamports).length = 8 := natLeBytes_length 8 lamports
    have htake : (u64ToLeBytes lamports ++ e.developer.bytes).take 8
        = u64ToLeBytes lamports := by
      rw [← hlen8, List.take_left]
    have hdrop : (u64ToLeBytes lamports ++ e.developer.bytes).drop 8
        = e.developer.bytes := by
      rw [← hlen8, List.drop_left]
    have hrt : leBytesToNat (u64ToLeBytes lamports) = lamports := by
      unfold u64ToLeBytes
      rw [leBytesToNat_natLeBytes]
      have h2 : (256 : Nat) ^ 8 = 2 ^ 64 := by norm_num
      rw [h2]
      exact Nat.mod_eq_of_lt hlt
    refine ⟨rfl, rfl, rfl, ?_, htake, ?_, hdrop⟩
    · show (u64ToLeBytes lamports ++ e.developer.bytes).length = 40
      rw [List.length_append, hlen8, hwf.1]
    · show leBytesToNat ((u64ToLeBytes lamports ++ e.developer.bytes).take 8) = lamports
      rw [htake, hrt]

/-- Witness for C4: the layout at a concrete builder, event and spend. -/
theorem buy_instruction_layout_witness :
    exampleConfig.program_id
      = Except.ok (TransactionBuilder.mk exampleConfig examplePayer none
          ((pubkeyFromStr "TokenkegQfeZyiNwAJbNbGKPFXCWuBvf9Ss623VQ5DA").getD
            ⟨[]⟩)).program_id ∧
    ((TransactionBuilder.mk exampleConfig examplePayer none
        examplePayer).pump_fun_buy_instruction exampleEvent 12345).data
      = u64ToLeBytes 12345 ++ exampleDev.bytes ∧
    ((TransactionBuilder.mk exampleConfig examplePayer none
        examplePayer).pump_fun_buy_instruction exampleEvent 12345).data.length
      = 40 :=
  ⟨buy_instruction_layout.1 exampleConfig examplePayer none _ rfl,
   (buy_instruction_layout.2 _ exampleEvent 12345 (by decide)
      (by decide)).2.2.1,
   (buy_instruction_layout.2 _ exampleEvent 12345 (by decide)
      (by decide)).2.2.2.1⟩

theorem selectOk_cons_ok {E A : Type} (a : A) (xs : List (Except E A)) :
    selectOk (Except.ok a :: xs) = some (Except.ok a) := rfl

theorem selectOk_cons_error {E A : Type} (e : E) (xs : List (Except E A)) :
    selectOk (Except.error e :: xs)
      = match selectOk xs with
        | none => some (Except.error e)
        | some r => some r := rfl

theorem selectOk_of_find?_ok {E A : Type} :
    ∀ (l : List (Except E A)) (r : Except E A),
      l.find? Except.isOk = some r → selectOk l = some r := by
  intro l
  induction l with
  | nil => intro r h; simp at h
  | cons x xs ih =>
    intro r h
    cases x with
    | ok a =>
      rw [List.find?_cons_of_pos _ rfl] at h
      rw [selectOk_cons_ok]
      exact h
    | error e =>
      rw [List.find?_cons_of_neg _ (by simp [Except.isOk, Except.toBool])] at h
      rw [selectOk_cons_error, ih r h]

theorem selectOk_all_error {E A : Type} :
    ∀ (l : List (Except E A)), 0 < l.length →
      (∀ x ∈ l, Except.isOk x = false) →
      selectOk l = l.getLast? := by
  intro l
  induction l with
  | nil => intro h; simp at h
  | cons x xs ih =>
    intro _ hall
    have hx := hall x (List.mem_cons_self x xs)
    cases x with
    | ok a => simp [Except.isOk, Except.toBool] at hx
    | error e =>
      cases xs with
      | nil => rfl
      | cons y ys =>
        have h2 := ih (by simp) (fun z hz => hall z (List.mem_cons_of_mem _ hz))
        have h3 : (y :: ys).getLast?.isSome = true := by
          rw [List.getLast?_isSome]
          simp
        rcases Option.isSome_iff_exists.mp h3 with ⟨r, hr⟩
        rw [hr] at h2
        rw [List.getLast?_cons_cons, hr, selectOk_cons_error, h2]

theorem dispatch_paths_length_pos (c : Config) : 0 < (dispatch_paths c).length := by
  unfold dispatch_paths
  simp

/-- C8: racing the configured paths, `dispatch_transaction` returns the
outcome of the first path to succeed (in completion order) when any path
succeeds, and when every path fails it returns the error of the last path
to complete. -/
theorem dispatch_first_success_or_last_error :
    ∀ (c : Config) (outcome : DispatchPath → Except String Signature)
      (order : List DispatchPath),
      order.Perm (dispatch_paths c) →
      ((∀ p : DispatchPath,
          order.find? (fun q => Except.isOk (outcome q)) = some p →
          dispatch_transaction c outcome order = some (outcome p) ∧
          Except.isOk (outcome p) = true) ∧
       ((∀ p ∈ order, Except.isOk (outcome p) = false) →
          dispatch_transaction c outcome order = (order.map outcome).getLast? ∧
          (order.map outcome).getLast?.isSome = true)) := by
  intro c outcome order hperm
  have hlen : 0 < order.length := by
    rw [hperm.length_eq]
    exact dispatch_paths_length_pos c
  constructor
  · intro p hp
    have hok : Except.isOk (outcome p) = true := by
      have := List.find?_some hp
      simpa using this
    refine ⟨?_, hok⟩
    apply selectOk_of_find?_ok
    rw [List.find?_map]
    have hcomp : (Except.isOk ∘ outcome) = fun q => Except.isOk (outcome q) := rfl
    rw [hcomp, hp]
    rfl
  · intro hall
    have hlen2 : 0 < (order.map outcome).length := by
      rw [List.length_map]
      exact hlen
    have hall2 : ∀ x ∈ order.map outcome, Except.isOk x = false := by
      intro x hx
      rcases List.mem_map.mp hx with ⟨p, hp, rfl⟩
      exact hall p hp
    refine ⟨selectOk_all_error _ hlen2 hall2, ?_⟩
    rw [List.getLast?_isSome]
    intro hnil
    rw [hnil] at hlen2
    simp at hlen2

/-- Witness for C8: with the bundle path completing first and failing, the
primary success is returned; with every path failing, the last completed
error is returned. -/
theorem dispatch_first_success_or_last_error_witness :
    (dispatch_transaction exampleDispatchConfig exampleOutcomeMixed
        [.jitoBundle, .primaryRpc]
      = some (exampleOutcomeMixed .primaryRpc) ∧
     Except.isOk (exampleOutcomeMixed .primaryRpc) = true) ∧
    (dispatch_transaction exampleDispatchConfig exampleOutcomeAllErr
        [.jitoBundle, .primaryRpc]
      = ([DispatchPath.jitoBundle, .primaryRpc].map exampleOutcomeAllErr).getLast? ∧
     ([DispatchPath.jitoBundle, .primaryRpc].map exampleOutcomeAllErr).getLast?.isSome
      = true) :=
  ⟨(dispatch_first_success_or_last_error exampleDispatchConfig exampleOutcomeMixed
      [.jitoBundle, .primaryRpc] (by decide)).1 .primaryRpc (by decide),
   (dispatch_first_success_or_last_error exampleDispatchConfig exampleOutcomeAllErr
      [.jitoBundle, .primaryRpc] (by decide)).2 (by decide)⟩

theorem is_allowed_record (rl : DevRateLimiter) (dev : Pubkey) (L W now : Nat) :
    (rl.is_allowed dev L W now).1.counts dev = rlRecord W (rl.counts dev) now ∧
    (rl.is_allowed dev L W now).2
      = decide ((rlRecord W (rl.counts dev) now).length ≤ L) := by
  simp [DevRateLimiter.is_allowed, rlRecord]

theorem isAllowedTrace_eq_rlTrace (dev : Pubkey) (L W : Nat) :
    ∀ (ts : List Nat) (rl : DevRateLimiter),
      isAllowedTrace dev L W rl ts = rlTrace L W (rl.counts dev) ts := by
  intro ts
  induction ts with
  | nil => intro rl; rfl
  | cons t ts ih =>
    intro rl
    have hrec := is_allowed_record rl dev L W t
    show (t, (rl.is_allowed dev L W t).2)
        :: isAllowedTrace dev L W (rl.is_allowed dev L W t).1 ts
      = (t, decide ((rlRecord W (rl.counts dev) t).length ≤ L))
        :: rlTrace L W (rlRecord W (rl.counts dev) t) ts
    rw [hrec.2, ih ((rl.is_allowed dev L W t).1), hrec.1]

theorem windowTrueCount_cons (a W t : Nat) (r : Bool) (tr : List (Nat × Bool)) :
    windowTrueCount a W ((t, r) :: tr)
      = windowTrueCount a W tr
        + (if a ≤ t ∧ t ≤ a + W ∧ r = true then 1 else 0) := by
  unfold windowTrueCount
  rw [List.filter_cons]
  by_cases h1 : a ≤ t <;> by_cases h2 : t ≤ a + W <;> cases r <;>
    simp [h1, h2]

theorem countGe_rlRecord (a W t : Nat) (entry : List Nat) (h : t ≤ a + W) :
    countGe a (rlRecord W entry t)
      = countGe a entry + (if a ≤ t then 1 else 0) := by
  unfold countGe rlRecord
  rw [List.countP_append]
  congr 1
  · rw [List.countP_filter]
    apply List.countP_congr
    intro x hx
    simp only [Bool.and_eq_true, decide_eq_true_eq]
    constructor
    · rintro ⟨hax, _⟩
      exact hax
    · intro hax
      exact ⟨hax, by omega⟩
  · by_cases hat : a ≤ t <;> simp [List.countP_cons, hat]

theorem windowTrueCount_zero (L W a : Nat) :
    ∀ (ts entry : List Nat), (∀ x ∈ ts, ¬ x ≤ a + W) →
      windowTrueCount a W (rlTrace L W entry ts) = 0 := by
  intro ts
  induction ts with
  | nil => intro entry _; rfl
  | cons t ts ih =>
    intro entry h
    show windowTrueCount a W ((t, decide ((rlRecord W entry t).length ≤ L))
      :: rlTrace L W (rlRecord W entry t) ts) = 0
    rw [windowTrueCount_cons,
      ih (rlRecord W entry t) (fun x hx => h x (List.mem_cons_of_mem _ hx))]
    simp [h t (List.mem_cons_self t ts)]

theorem rlTrace_window_bound (L W a : Nat) :
    ∀ (ts entry : List Nat),
      List.Sorted (· ≤ ·) ts →
      (∀ y ∈ entry, ∀ x ∈ ts, y ≤ x) →
      (countGe a entry ≤ L →
        windowTrueCount a W (rlTrace L W entry ts) + countGe a entry ≤ L) ∧
      (L < countGe a entry →
        windowTrueCount a W (rlTrace L W entry ts) = 0) := by
  intro ts
  induction ts with
  | nil =>
    intro entry _ _
    constructor
    · intro h
      simpa [rlTrace, windowTrueCount] using h
    · intro _
      rfl
  | cons t ts ih =>
    intro entry hsort hle
    obtain ⟨hts, hsort2⟩ := List.sorted_cons.mp hsort
    have hle2 : ∀ y ∈ rlRecord W entry t, ∀ x ∈ ts, y ≤ x := by
      intro y hy x hx
      rcases List.mem_append.mp hy with hmem | hmem
      · exact hle y (List.mem_of_mem_filter hmem) x (List.mem_cons_of_mem t hx)
      · have hy2 : y = t := by simpa using hmem
        subst hy2
        exact hts x hx
    have ihs := ih (rlRecord W entry t) hsort2 hle2
    have hlenge : countGe a (rlRecord W entry t) ≤ (rlRecord W entry t).length :=
      List.countP_le_length _
    rw [show rlTrace L W entry (t :: ts)
        = (t, decide ((rlRecord W entry t).length ≤ L))
          :: rlTrace L W (rlRecord W entry t) ts from rfl,
      windowTrueCount_cons]
    by_cases hw : t ≤ a + W
    · have hcg := countGe_rlRecord a W t entry hw
      by_cases hat : a ≤ t
      · have hrec : countGe a (rlRecord W entry t) = countGe a entry + 1 := by
          simpa [hat] using hcg
        by_cases hres : (rlRecord W entry t).length ≤ L
        · rw [if_pos ⟨hat, hw, by simpa using hres⟩]
          constructor
          · intro hcle
            have h1 := ihs.1 (le_trans hlenge hres)
            omega
          · intro hgt
            exfalso
            omega
        · rw [if_neg (by simp [hres])]
          constructor
          · intro hcle
            rcases Nat.lt_or_ge L (countGe a (rlRecord W entry t)) with hgt2 | hle3
            · have h0 := ihs.2 hgt2
              omega
            · have h1 := ihs.1 hle3
              omega
          · intro hgt
            have h0 := ihs.2 (by omega)
            omega
      · have hrec : countGe a (rlRecord W entry t) = countGe a entry := by
          simpa [hat] using hcg
        rw [if_neg (by simp [hat])]
        constructor
        · intro hcle
          have h1 := ihs.1 (by omega)
          omega
        · intro hgt
          have h0 := ihs.2 (by omega)
          omega
    · have h0 : windowTrueCount a W (rlTrace L W (rlRecord W entry t) ts) = 0 := by
        apply windowTrueCount_zero
        intro x hx hxle
        exact hw (by have := hts x hx; omega)
      rw [if_neg (by simp [hw]), h0]
      constructor
      · intro hcle
        omega
      · intro _
        omega

/-- C2: a single `is_allowed(dev, L, W)` call leaves the entry for `dev`
holding exactly the previously stored timestamps within the last `W` plus
the just-recorded one (other entries untouched) and returns true iff the
resulting length is at most `L`; consequently any sequence of calls for a
fresh developer at nondecreasing instants yields at most `L` true results
inside any window `[a, a + W]`. -/
theorem rate_limiter_window_invariant :
    (∀ (rl : DevRateLimiter) (dev : Pubkey) (L W now : Nat),
      (rl.is_allowed dev L W now).1.counts dev
        = (rl.counts dev).filter (fun ts => decide (now - ts ≤ W)) ++ [now] ∧
      (∀ d, d ≠ dev → (rl.is_allowed dev L W now).1.counts d = rl.counts d) ∧
      ((rl.is_allowed dev L W now).2 = true ↔
        ((rl.is_allowed dev L W now).1.counts dev).length ≤ L)) ∧
    (∀ (dev : Pubkey) (L W : Nat) (rl : DevRateLimiter) (ts : List Nat) (a : Nat),
      rl.counts dev = [] → List.Sorted (· ≤ ·) ts →
      windowTrueCount a W (isAllowedTrace dev L W rl ts) ≤ L) := by
  constructor
  · intro rl dev L W now
    refine ⟨is_allowed_counts_self rl dev L W now,
      fun d hd => is_allowed_counts_other rl dev L W now d hd, ?_⟩
    rw [is_allowed_snd rl dev L W now]
    simp
  · intro dev L W rl ts a h0 hsort
    rw [isAllowedTrace_eq_rlTrace dev L W ts rl, h0]
    have hb := (rlTrace_window_bound L W a ts [] hsort (by simp)).1
      (by simp [countGe])
    simpa [countGe] using hb

/-- Witness for C2: a single call on a fresh limiter and a three-call
trace with limit 2 inside one window. -/
theorem rate_limiter_window_invariant_witness :
    ((emptyLimiter.is_allowed exampleDev 2 60 5).1.counts exampleDev
      = (emptyLimiter.counts exampleDev).filter
          (fun ts => decide (5 - ts ≤ 60)) ++ [5] ∧
     ((emptyLimiter.is_allowed exampleDev 2 60 5).2 = true ↔
      ((emptyLimiter.is_allowed exampleDev 2 60 5).1.counts exampleDev).length
        ≤ 2)) ∧
    (emptyLimiter.counts exampleDev = [] ∧
     List.Sorted (· ≤ ·) [0, 10, 20] ∧
     windowTrueCount 0 60 (isAllowedTrace exampleDev 2 60 emptyLimiter [0, 10, 20])
       ≤ 2) :=
  ⟨⟨(rate_limiter_window_invariant.1 emptyLimiter exampleDev 2 60 5).1,
    (rate_limiter_window_invariant.1 emptyLimiter exampleDev 2 60 5).2.2⟩,
   ⟨rfl, by decide,
    rate_limiter_window_invariant.2 exampleDev 2 60 emptyLimiter [0, 10, 20] 0
      rfl (by decide)⟩⟩

end Sniper
